import Mathlib

/-!
Shallow embedding of `scripts/set_rtc_time.py` (the PlatformIO post-upload
hook `after_upload`).  The procedure's externally observable behaviour is
modelled as a trace of effects; a `SerialWorld` oracle decides which fallible
library call (open / write / flush / readline-decode / close) raises and what
the device has buffered at the `in_waiting` check.
-/

namespace SetRtcTime

/-- Console and serial effects of one run of `after_upload`, in order.
`print s` records the argument passed to Python's `print` (the implicit
trailing newline added by `print` itself is not part of `s`).
`sleep ms` is `time.sleep` of `ms` milliseconds, so `time.sleep(0.5)` is
`sleep 500`.
`openPort p baud timeoutMs` records a successful
`serial.Serial(p, baud, timeout=timeoutMs/1000)`.
`write data` records the byte list passed to `ser.write`.
`flush` records a completed `ser.flush()`.
`checkWaiting b` records reading `ser.in_waiting`, with `b` true iff bytes were buffered.
`readLine` records an invocation of `ser.readline()`.
`close` records an invocation of `ser.close()`. -/
inductive Effect where
  | print (s : String)
  | sleep (ms : Nat)
  | openPort (port : String) (baud : Nat) (timeoutMs : Nat)
  | write (data : List Nat)
  | flush
  | checkWaiting (avail : Bool)
  | readLine
  | close
  deriving DecidableEq, Repr

/-- Oracle for one execution: for each fallible library call, `none` means it
succeeds and `some m` means it raises an exception whose description is `m`.
`readErr` covers both `ser.readline()` and `.decode()` failing.  `inWaiting`
is the value of `ser.in_waiting` at the single instant it is checked, and
`response` is the decoded text of the line `ser.readline()` returns. -/
structure SerialWorld where
  openErr : Option String
  writeErr : Option String
  flushErr : Option String
  inWaiting : Bool
  readErr : Option String
  response : String
  closeErr : Option String
  deriving DecidableEq, Repr

/-- Model of the whitespace test CPython's `str.strip()` uses
(`Py_UNICODE_ISSPACE`): true exactly on U+0009 to U+000D, U+001C to U+001F,
space, U+0085, U+00A0, U+1680, U+2000 to U+200A, U+2028, U+2029, U+202F,
U+205F and U+3000. -/
def pyIsSpace (c : Char) : Bool :=
  let n := c.toNat
  (9 ≤ n && n ≤ 13) || (28 ≤ n && n ≤ 31) || n == 32 || n == 0x85 || n == 0xA0 ||
    n == 0x1680 || (0x2000 ≤ n && n ≤ 0x200A) || n == 0x2028 || n == 0x2029 ||
    n == 0x202F || n == 0x205F || n == 0x3000

/-- Strip leading and trailing Python-whitespace from a character list. -/
def stripList (l : List Char) : List Char :=
  ((l.dropWhile pyIsSpace).reverse.dropWhile pyIsSpace).reverse

/-- Model of Python's `str.strip()`. -/
def pyStrip (s : String) : String := String.mk (stripList s.data)

/-- UTF-8 encoding of one character, as the list of its byte values. -/
def utf8EncodeChar (c : Char) : List Nat :=
  let n := c.toNat
  if n < 0x80 then [n]
  else if n < 0x800 then [0xC0 + n / 0x40, 0x80 + n % 0x40]
  else if n < 0x10000 then [0xE0 + n / 0x1000, 0x80 + n / 0x40 % 0x40, 0x80 + n % 0x40]
  else [0xF0 + n / 0x40000, 0x80 + n / 0x1000 % 0x40, 0x80 + n / 0x40 % 0x40, 0x80 + n % 0x40]

/-- UTF-8 encoding of a character list. -/
def utf8Bytes : List Char → List Nat
  | [] => []
  | c :: cs => utf8EncodeChar c ++ utf8Bytes cs

/-- Model of Python's `str.encode()` (UTF-8). -/
def utf8Encode (s : String) : List Nat := utf8Bytes s.data

/-- Byte values of an ASCII string, one byte per character. -/
def asciiBytes (s : String) : List Nat := s.data.map Char.toNat

/-- Zero-pad a natural number to two decimal digits. -/
def pad2 (n : Nat) : String := if n < 10 then "0" ++ toString n else toString n

/-- Zero-pad a natural number to four decimal digits. -/
def pad4 (n : Nat) : String :=
  if n < 10 then "000" ++ toString n
  else if n < 100 then "00" ++ toString n
  else if n < 1000 then "0" ++ toString n
  else toString n

/-- Civil date (year, month, day) from a count of days since 1970-01-01,
the standard days-to-civil algorithm used by `time.gmtime`. -/
def civilFromDays (z₀ : Int) : Int × Nat × Nat :=
  let z := z₀ + 719468
  let era := z.fdiv 146097
  let doe := (z - era * 146097).toNat
  let yoe := (doe - doe / 1460 + doe / 36524 - doe / 146096) / 365
  let y := (yoe : Int) + era * 400
  let doy := doe - (365 * yoe + yoe / 4 - yoe / 100)
  let mp := (5 * doy + 2) / 153
  let d := doy - (153 * mp + 2) / 5 + 1
  let m := if mp < 10 then mp + 3 else mp - 9
  (if m ≤ 2 then y + 1 else y, m, d)

/-- Model of `time.strftime('%Y-%m-%d %H:%M:%S UTC', time.gmtime(epoch))`. -/
def formatUTC (epoch : Int) : String :=
  let days := epoch.fdiv 86400
  let sod := (epoch - days * 86400).toNat
  let c := civilFromDays days
  let yStr := if c.1 < 0 then "-" ++ pad4 (-c.1).toNat else pad4 c.1.toNat
  yStr ++ "-" ++ pad2 c.2.1 ++ "-" ++ pad2 c.2.2 ++ " " ++
    pad2 (sod / 3600) ++ ":" ++ pad2 (sod % 3600 / 60) ++ ":" ++ pad2 (sod % 60) ++ " UTC"

/-- The command string `f"SETTIME:{epoch}\n"`. -/
def cmdString (epoch : Int) : String := "SETTIME:" ++ toString epoch ++ "\n"

/-- The argument of the initial status `print`. -/
def headerLine (epoch : Int) : String :=
  "\n[RTC] Setting to system time: " ++ formatUTC epoch

/-- The argument of the completion-marker `print`. -/
def doneLine : String := "[RTC] Done\n"

/-- The argument of the failure `print` for exception description `m`. -/
def failLine (m : String) : String := "[RTC] Failed: " ++ m ++ "\n"

/-- Tail of the try block: `ser.close()` then `print("[RTC] Done\n")`.
Returns the effects performed and `some m` when an exception with
description `m` escapes the try block. -/
def closeAndDone (acc : List Effect) (w : SerialWorld) : List Effect × Option String :=
  let acc₁ := acc ++ [Effect.close]
  match w.closeErr with
  | some m => (acc₁, some m)
  | none => (acc₁ ++ [Effect.print doneLine], none)

/-- The try block of `after_upload`: sleep, open, sleep, write, flush, sleep,
conditional read, close, done-marker.  Returns the effects performed and
`some m` when an exception with description `m` escapes the block. -/
def tryBody (port : String) (epoch : Int) (w : SerialWorld) : List Effect × Option String :=
  let acc₀ := [Effect.sleep 3000]
  match w.openErr with
  | some m => (acc₀, some m)
  | none =>
    let acc₁ := acc₀ ++ [Effect.openPort port 115200 2000, Effect.sleep 1000,
      Effect.write (utf8Encode (cmdString epoch))]
    match w.writeErr with
    | some m => (acc₁, some m)
    | none =>
      match w.flushErr with
      | some m => (acc₁, some m)
      | none =>
        let acc₂ := acc₁ ++ [Effect.flush, Effect.sleep 500, Effect.checkWaiting w.inWaiting]
        if w.inWaiting then
          let acc₃ := acc₂ ++ [Effect.readLine]
          match w.readErr with
          | some m => (acc₃, some m)
          | none => closeAndDone (acc₃ ++ [Effect.print ("[RTC] " ++ pyStrip w.response)]) w
        else closeAndDone acc₂ w

/-- The whole `after_upload(source, target, env)` procedure: the trace of
effects of one invocation.  `upload_port` is `env.get("UPLOAD_PORT")`
(`none` when the key is absent), `epoch` is the captured `int(time.time())`,
and `w` resolves the fallible library calls.  The Python guard
`if not upload_port: return` skips both `None` and the empty string.
The surrounding `try/except` turns an escaping exception into the
`[RTC] Failed: ...` print, so the procedure always returns normally. -/
def after_upload (upload_port : Option String) (epoch : Int) (w : SerialWorld) : List Effect :=
  match upload_port with
  | none => []
  | some port =>
    if port = "" then []
    else
      let r := tryBody port epoch w
      match r.2 with
      | none => Effect.print (headerLine epoch) :: r.1
      | some m => Effect.print (headerLine epoch) :: r.1 ++ [Effect.print (failLine m)]

/-- A world in which every library call succeeds. -/
def okWorld (avail : Bool) (resp : String) : SerialWorld :=
  ⟨none, none, none, avail, none, resp, none⟩

/-- A world in which `ser.write` raises. -/
def writeFailWorld : SerialWorld :=
  ⟨none, some "Write timeout", none, false, none, "", none⟩

/-- A world in which `serial.Serial(...)` raises. -/
def openFailWorld : SerialWorld :=
  ⟨some "could not open port COM7", none, none, false, none, "", none⟩

end SetRtcTime

section Sanity

open SetRtcTime

example : formatUTC 1700000000 = "2023-11-14 22:13:20 UTC" := by decide

example : formatUTC 0 = "1970-01-01 00:00:00 UTC" := by decide

example : after_upload none 5 (okWorld false "") = [] := by decide

example : pyStrip "\x0cOK\n" = "OK" := by decide

example : pyStrip " \x0b\x1c\xa0TIME SET \x85\r\n" = "TIME SET" := by decide

example :
    after_upload (some "COM7") 0 (okWorld false "") =
      [Effect.print (headerLine 0), Effect.sleep 3000, Effect.openPort "COM7" 115200 2000,
       Effect.sleep 1000, Effect.write (asciiBytes "SETTIME:0\n"), Effect.flush,
       Effect.sleep 500, Effect.checkWaiting false, Effect.close,
       Effect.print doneLine] := by decide

end Sanity

namespace SetRtcTime

/-! Helper lemmas: the four distinct console-line shapes (header, response,
done marker, failure line) are pairwise distinct strings. -/

theorem stripList_getLast?_not_space {l : List Char} {c : Char}
    (h : (stripList l).getLast? = some c) : pyIsSpace c = false := by
  unfold stripList at h
  rw [List.getLast?_reverse] at h
  have h₂ := List.head?_dropWhile_not pyIsSpace ((l.dropWhile pyIsSpace).reverse)
  rw [h] at h₂
  exact h₂

theorem respLine_lastChar (r : String) :
    ∃ c, ("[RTC] " ++ pyStrip r).data.getLast? = some c ∧ c ≠ '\n' := by
  rw [String.data_append]
  cases hs : (stripList r.data).getLast? with
  | none =>
    have hnil : stripList r.data = [] := by
      cases he : stripList r.data with
      | nil => rfl
      | cons x xs => rw [he] at hs; simp [List.getLast?] at hs
    refine ⟨' ', ?_, by decide⟩
    have hd : (pyStrip r).data = stripList r.data := rfl
    rw [hd, hnil, List.append_nil]
    decide
  | some c =>
    refine ⟨c, ?_, ?_⟩
    · have hd : (pyStrip r).data = stripList r.data := rfl
      rw [hd]
      have hne : stripList r.data ≠ [] := by
        intro he; rw [he] at hs; simp [List.getLast?] at hs
      rw [List.getLast?_append_of_ne_nil _ hne]
      exact hs
    · intro he
      have := stripList_getLast?_not_space hs
      rw [he] at this
      exact absurd this (by decide)

theorem failLine_lastChar (m : String) : (failLine m).data.getLast? = some '\n' := by
  unfold failLine
  rw [String.data_append, String.data_append]
  exact List.getLast?_concat _

theorem respLine_ne_doneLine (r : String) : "[RTC] " ++ pyStrip r ≠ doneLine := by
  intro h
  obtain ⟨c, hc, hne⟩ := respLine_lastChar r
  rw [h] at hc
  have hd : doneLine.data.getLast? = some '\n' := by decide
  rw [hd] at hc
  exact hne (Option.some.inj hc).symm

theorem doneLine_ne_respLine (r : String) : doneLine ≠ "[RTC] " ++ pyStrip r :=
  fun h => respLine_ne_doneLine r h.symm

theorem respLine_ne_failLine (r m : String) : "[RTC] " ++ pyStrip r ≠ failLine m := by
  intro h
  obtain ⟨c, hc, hne⟩ := respLine_lastChar r
  rw [h, failLine_lastChar] at hc
  exact hne (Option.some.inj hc).symm

theorem failLine_ne_respLine (m r : String) : failLine m ≠ "[RTC] " ++ pyStrip r :=
  fun h => respLine_ne_failLine r m h.symm

theorem headerLine_head (e : Int) : (headerLine e).data.head? = some '\n' := by
  unfold headerLine
  rw [String.data_append]
  rfl

theorem failLine_head (m : String) : (failLine m).data.head? = some '[' := by
  unfold failLine
  rw [String.data_append, String.data_append]
  rfl

theorem headerLine_ne_doneLine (e : Int) : headerLine e ≠ doneLine := by
  intro h
  have h₂ : (headerLine e).data.head? = doneLine.data.head? := by rw [h]
  rw [headerLine_head] at h₂
  have hd : doneLine.data.head? = some '[' := by decide
  rw [hd] at h₂
  exact absurd (Option.some.inj h₂) (by decide)

theorem doneLine_ne_headerLine (e : Int) : doneLine ≠ headerLine e :=
  fun h => headerLine_ne_doneLine e h.symm

theorem headerLine_ne_failLine (e : Int) (m : String) : headerLine e ≠ failLine m := by
  intro h
  have h₂ : (headerLine e).data.head? = (failLine m).data.head? := by rw [h]
  rw [headerLine_head, failLine_head] at h₂
  exact absurd (Option.some.inj h₂) (by decide)

theorem failLine_ne_headerLine (m : String) (e : Int) : failLine m ≠ headerLine e :=
  fun h => headerLine_ne_failLine e m h.symm

theorem doneLine_ne_failLine (m : String) : doneLine ≠ failLine m := by
  intro h
  have h₂ : doneLine.length = (failLine m).length := by rw [h]
  unfold failLine at h₂
  rw [String.length_append, String.length_append] at h₂
  have e₁ : doneLine.length = 11 := by decide
  have e₂ : ("[RTC] Failed: " : String).length = 14 := by decide
  have e₃ : ("\n" : String).length = 1 := by decide
  rw [e₁, e₂, e₃] at h₂
  omega

theorem failLine_ne_doneLine (m : String) : failLine m ≠ doneLine :=
  fun h => doneLine_ne_failLine m h.symm

/-! Helper lemmas: the command string is pure ASCII, so its UTF-8 encoding is
one byte per character. -/

theorem digitChar_toNat_lt (n : Nat) : (Nat.digitChar n).toNat < 128 := by
  by_cases h : n < 16
  · interval_cases n <;> decide
  · have hstar : Nat.digitChar n = '*' := by
      unfold Nat.digitChar
      repeat rw [if_neg (by omega)]
    rw [hstar]; decide

theorem toDigitsCore_ascii :
    ∀ (fuel n : Nat) (acc : List Char), (∀ c ∈ acc, c.toNat < 128) →
      ∀ c ∈ Nat.toDigitsCore 10 fuel n acc, c.toNat < 128 := by
  intro fuel
  induction fuel with
  | zero =>
    intro n acc hacc c hc
    exact hacc c hc
  | succ fuel ih =>
    intro n acc hacc c hc
    rw [Nat.toDigitsCore] at hc
    by_cases hz : n / 10 = 0
    · rw [if_pos hz] at hc
      rcases List.mem_cons.1 hc with h | h
      · rw [h]; exact digitChar_toNat_lt _
      · exact hacc c h
    · rw [if_neg hz] at hc
      refine ih (n / 10) (Nat.digitChar (n % 10) :: acc) ?_ c hc
      intro d hd
      rcases List.mem_cons.1 hd with h | h
      · rw [h]; exact digitChar_toNat_lt _
      · exact hacc d h

theorem natRepr_ascii (n : Nat) : ∀ c ∈ (Nat.repr n).data, c.toNat < 128 := by
  intro c hc
  exact toDigitsCore_ascii (n + 1) n [] (by intro d hd; cases hd) c hc

theorem intToString_ascii (i : Int) : ∀ c ∈ (toString i).data, c.toNat < 128 := by
  cases i with
  | ofNat n => exact natRepr_ascii n
  | negSucc n =>
    intro c hc
    have hd : (toString (Int.negSucc n)).data = '-' :: (Nat.repr (n + 1)).data := rfl
    rw [hd] at hc
    rcases List.mem_cons.1 hc with h | h
    · rw [h]; decide
    · exact natRepr_ascii (n + 1) c h

theorem utf8Bytes_ascii :
    ∀ l : List Char, (∀ c ∈ l, c.toNat < 128) → utf8Bytes l = l.map Char.toNat := by
  intro l
  induction l with
  | nil => intro; rfl
  | cons c cs ih =>
    intro h
    have hc : c.toNat < 128 := h c (List.mem_cons_self c cs)
    have he : utf8EncodeChar c = [c.toNat] := by
      unfold utf8EncodeChar
      rw [if_pos hc]
    rw [utf8Bytes, he, ih (fun d hd => h d (List.mem_cons_of_mem c hd)), List.map_cons,
      List.singleton_append]

theorem cmdString_ascii (epoch : Int) : ∀ c ∈ (cmdString epoch).data, c.toNat < 128 := by
  intro c hc
  unfold cmdString at hc
  rw [String.data_append, String.data_append] at hc
  rcases List.mem_append.1 hc with h | h
  · rcases List.mem_append.1 h with h₁ | h₂
    · have hlit : ∀ c ∈ ("SETTIME:" : String).data, c.toNat < 128 := by decide
      exact hlit c h₁
    · exact intToString_ascii epoch c h₂
  · have hlit : ∀ c ∈ ("\n" : String).data, c.toNat < 128 := by decide
    exact hlit c h

theorem cmdString_bytes (epoch : Int) :
    utf8Encode (cmdString epoch) = asciiBytes (cmdString epoch) :=
  utf8Bytes_ascii (cmdString epoch).data (cmdString_ascii epoch)

/-! Helper lemmas: shape of the trace in the failing and the successful
case, and which prints the try block can emit. -/

theorem trace_err {port : String} {epoch : Int} {w : SerialWorld} {m : String}
    (hp : port ≠ "") (he : (tryBody port epoch w).2 = some m) :
    after_upload (some port) epoch w =
      Effect.print (headerLine epoch) ::
        (tryBody port epoch w).1 ++ [Effect.print (failLine m)] := by
  simp [after_upload, hp, he]

theorem trace_ok {port : String} {epoch : Int} {w : SerialWorld}
    (hp : port ≠ "") (he : (tryBody port epoch w).2 = none) :
    after_upload (some port) epoch w =
      Effect.print (headerLine epoch) :: (tryBody port epoch w).1 := by
  simp [after_upload, hp, he]

theorem done_mem_tryBody_fst (port : String) (epoch : Int) (w : SerialWorld) :
    Effect.print doneLine ∈ (tryBody port epoch w).1 ↔ (tryBody port epoch w).2 = none := by
  rcases w with ⟨o, wr, fl, b, rd, resp, cl⟩
  cases o <;> cases wr <;> cases fl <;> cases b <;> cases rd <;> cases cl <;>
    simp [tryBody, closeAndDone, doneLine_ne_respLine]

theorem fail_not_mem_tryBody_fst (port : String) (epoch : Int) (w : SerialWorld) (m : String) :
    Effect.print (failLine m) ∉ (tryBody port epoch w).1 := by
  rcases w with ⟨o, wr, fl, b, rd, resp, cl⟩
  cases o <;> cases wr <;> cases fl <;> cases b <;> cases rd <;> cases cl <;>
    simp [tryBody, closeAndDone, failLine_ne_respLine, failLine_ne_doneLine]

end SetRtcTime

section Claims

open SetRtcTime

/-- Claim C4: when the upload-port identifier is absent (`None`) or empty,
`after_upload` performs no effect at all: no open, no write, no sleep, no
print, and it returns normally. -/
theorem c4_no_port_noop (epoch : Int) (w : SerialWorld) :
    after_upload none epoch w = [] ∧ after_upload (some "") epoch w = [] :=
  ⟨rfl, rfl⟩

/-- Claim C1 counterexample: in an execution where the port opens successfully
and `ser.write` then raises, `ser.close()` is never invoked, so the claim
that the port is closed on every exit path is false of the code (the
`try` block has no `finally`; `ser.close()` sits on the success path only). -/
theorem c1_counterexample :
    Effect.openPort "COM7" 115200 2000 ∈ after_upload (some "COM7") 0 writeFailWorld ∧
      Effect.close ∉ after_upload (some "COM7") 0 writeFailWorld := by
  decide

/-- Claim C1 (amended): `ser.close()` is invoked exactly in the executions
that reach it, namely those in which open, write and flush succeed and, when
response bytes are buffered, the read and decode succeed as well; an error in
write, flush, or the read skips the close (the procedure still returns
normally through the handler). -/
theorem c1_amended (port : String) (epoch : Int) (w : SerialWorld) (hp : port ≠ "") :
    Effect.close ∈ after_upload (some port) epoch w ↔
      w.openErr = none ∧ w.writeErr = none ∧ w.flushErr = none ∧
        (w.inWaiting = true → w.readErr = none) := by
  rcases w with ⟨o, wr, fl, b, rd, resp, cl⟩
  cases o <;> cases wr <;> cases fl <;> cases b <;> cases rd <;> cases cl <;>
    simp [after_upload, tryBody, closeAndDone, hp]

/-- Claim C1 (amended) witness: concrete instantiation at an all-successful
execution on port `COM7`. -/
theorem c1_amended_witness :
    ("COM7" : String) ≠ "" ∧
      (Effect.close ∈ after_upload (some "COM7") 0 (okWorld false "") ↔
        (okWorld false "").openErr = none ∧ (okWorld false "").writeErr = none ∧
          (okWorld false "").flushErr = none ∧
          ((okWorld false "").inWaiting = true → (okWorld false "").readErr = none)) :=
  ⟨by decide, c1_amended "COM7" 0 (okWorld false "") (by decide)⟩

/-- Claim C2: every byte list handed to `ser.write` is exactly the ASCII
encoding of `SETTIME:` followed by the decimal representation of the captured
epoch followed by one newline, and such a write occurs exactly once in the
trace that contains it. -/
theorem c2_write_bytes (port : String) (epoch : Int) (w : SerialWorld) (data : List Nat)
    (h : Effect.write data ∈ after_upload (some port) epoch w) :
    data = asciiBytes ("SETTIME:" ++ toString epoch ++ "\n") ∧
      (after_upload (some port) epoch w).count (Effect.write data) = 1 := by
  have hd : data = utf8Encode (cmdString epoch) := by
    rcases w with ⟨o, wr, fl, b, rd, resp, cl⟩
    by_cases hp : port = "" <;>
      cases o <;> cases wr <;> cases fl <;> cases b <;> cases rd <;> cases cl <;>
        simp_all [after_upload, tryBody, closeAndDone]
  constructor
  · rw [hd, cmdString_bytes]; rfl
  · rw [hd] at h ⊢
    rcases w with ⟨o, wr, fl, b, rd, resp, cl⟩
    by_cases hp : port = "" <;>
      cases o <;> cases wr <;> cases fl <;> cases b <;> cases rd <;> cases cl <;>
        simp_all [after_upload, tryBody, closeAndDone, List.count_cons, List.count_append]

/-- Claim C2 witness: the scenario of the spec, port `COM7` and epoch
1700000000; the transmitted bytes are exactly `SETTIME:1700000000\n` in
ASCII. -/
theorem c2_write_bytes_witness :
    Effect.write (asciiBytes "SETTIME:1700000000\n")
        ∈ after_upload (some "COM7") 1700000000 (okWorld false "") ∧
      asciiBytes "SETTIME:1700000000\n" =
          asciiBytes ("SETTIME:" ++ toString (1700000000 : Int) ++ "\n") ∧
        (after_upload (some "COM7") 1700000000 (okWorld false "")).count
            (Effect.write (asciiBytes "SETTIME:1700000000\n")) = 1 :=
  ⟨by decide,
    c2_write_bytes "COM7" 1700000000 (okWorld false "") (asciiBytes "SETTIME:1700000000\n")
      (by decide)⟩

/-- Claim C3: whenever any step of the try block raises (open, write, flush,
read or decode, close), the exception is caught inside the procedure: the
trace is the header print, the effects performed up to the failure, and a
final failure log line containing the exception's description, and the
procedure returns normally (the trace is this finite list; nothing
propagates). -/
theorem c3_failure_caught (port : String) (epoch : Int) (w : SerialWorld) (m : String)
    (hp : port ≠ "") (he : (tryBody port epoch w).2 = some m) :
    after_upload (some port) epoch w =
      Effect.print (headerLine epoch) ::
        (tryBody port epoch w).1 ++ [Effect.print (failLine m)] := by
  simp [after_upload, hp, he]

/-- Claim C3 witness: concrete failing open on `COM7`. -/
theorem c3_failure_caught_witness :
    ("COM7" : String) ≠ "" ∧
      (tryBody "COM7" 0 openFailWorld).2 = some "could not open port COM7" ∧
      after_upload (some "COM7") 0 openFailWorld =
        Effect.print (headerLine 0) ::
          (tryBody "COM7" 0 openFailWorld).1 ++
            [Effect.print (failLine "could not open port COM7")] :=
  ⟨by decide, by decide,
    c3_failure_caught "COM7" 0 openFailWorld "could not open port COM7" (by decide) (by decide)⟩

/-- Claim C5: when the port opens, write and flush succeed, and no response
bytes are buffered at the `in_waiting` check, the procedure runs to
completion: the trace is exactly the success sequence with no read and no
response line, ending with the completion marker. -/
theorem c5_no_response_done (port : String) (epoch : Int) (w : SerialWorld) (hp : port ≠ "")
    (ho : w.openErr = none) (hw : w.writeErr = none) (hf : w.flushErr = none)
    (hb : w.inWaiting = false) (hc : w.closeErr = none) :
    after_upload (some port) epoch w =
      [Effect.print (headerLine epoch), Effect.sleep 3000, Effect.openPort port 115200 2000,
        Effect.sleep 1000, Effect.write (utf8Encode (cmdString epoch)), Effect.flush,
        Effect.sleep 500, Effect.checkWaiting false, Effect.close, Effect.print doneLine] := by
  simp [after_upload, tryBody, closeAndDone, hp, ho, hw, hf, hb, hc]

/-- Claim C5 witness: concrete silent device on `COM7`. -/
theorem c5_no_response_done_witness :
    after_upload (some "COM7") 0 (okWorld false "") =
      [Effect.print (headerLine 0), Effect.sleep 3000, Effect.openPort "COM7" 115200 2000,
        Effect.sleep 1000, Effect.write (utf8Encode (cmdString 0)), Effect.flush,
        Effect.sleep 500, Effect.checkWaiting false, Effect.close, Effect.print doneLine] :=
  c5_no_response_done "COM7" 0 (okWorld false "") (by decide) rfl rfl rfl rfl rfl

/-- Claim C6: when response bytes are buffered at the `in_waiting` check and
the read and decode succeed, exactly one `readline` happens and the logged
line is `[RTC] ` followed by the decoded response stripped of leading and
trailing whitespace. -/
theorem c6_response_logged (port : String) (epoch : Int) (w : SerialWorld) (hp : port ≠ "")
    (ho : w.openErr = none) (hw : w.writeErr = none) (hf : w.flushErr = none)
    (hb : w.inWaiting = true) (hr : w.readErr = none) :
    (after_upload (some port) epoch w).count Effect.readLine = 1 ∧
      Effect.print ("[RTC] " ++ pyStrip w.response) ∈ after_upload (some port) epoch w := by
  cases hcl : w.closeErr <;>
    simp [after_upload, tryBody, closeAndDone, hp, ho, hw, hf, hb, hr, hcl,
      List.count_cons, List.count_append]

/-- Claim C6 witness: concrete device response with surrounding whitespace. -/
theorem c6_response_logged_witness :
    ("COM7" : String) ≠ "" ∧
      ((after_upload (some "COM7") 0 (okWorld true " TIME SET\r\n")).count Effect.readLine = 1 ∧
        Effect.print ("[RTC] " ++ pyStrip " TIME SET\r\n")
          ∈ after_upload (some "COM7") 0 (okWorld true " TIME SET\r\n")) :=
  ⟨by decide, c6_response_logged "COM7" 0 (okWorld true " TIME SET\r\n")
    (by decide) rfl rfl rfl rfl rfl⟩

/-- Claim C7: in an execution with a configured port in which every library
call succeeds, the trace is exactly the ordered sequence: header print with
the UTC-formatted epoch, sleep 3 s, open at baud 115200 with a 2 s timeout,
sleep 1 s, write of the command bytes, flush, sleep 0.5 s, the single
`in_waiting` check, optionally one read plus its log line, close, completion
marker — nothing reordered or repeated (sleeps are in milliseconds). -/
theorem c7_success_sequence (port : String) (epoch : Int) (w : SerialWorld) (hp : port ≠ "")
    (ho : w.openErr = none) (hw : w.writeErr = none) (hf : w.flushErr = none)
    (hr : w.readErr = none) (hc : w.closeErr = none) :
    after_upload (some port) epoch w =
      [Effect.print (headerLine epoch), Effect.sleep 3000, Effect.openPort port 115200 2000,
        Effect.sleep 1000, Effect.write (utf8Encode (cmdString epoch)), Effect.flush,
        Effect.sleep 500, Effect.checkWaiting w.inWaiting] ++
      (if w.inWaiting then
        [Effect.readLine, Effect.print ("[RTC] " ++ pyStrip w.response)] else []) ++
      [Effect.close, Effect.print doneLine] := by
  cases hb : w.inWaiting <;>
    simp [after_upload, tryBody, closeAndDone, hp, ho, hw, hf, hr, hc, hb]

/-- Claim C7 witness: concrete all-successful execution with a responding
device. -/
theorem c7_success_sequence_witness :
    after_upload (some "COM7") 0 (okWorld true "OK") =
      [Effect.print (headerLine 0), Effect.sleep 3000, Effect.openPort "COM7" 115200 2000,
        Effect.sleep 1000, Effect.write (utf8Encode (cmdString 0)), Effect.flush,
        Effect.sleep 500, Effect.checkWaiting (okWorld true "OK").inWaiting] ++
      (if (okWorld true "OK").inWaiting then
        [Effect.readLine, Effect.print ("[RTC] " ++ pyStrip (okWorld true "OK").response)]
       else []) ++
      [Effect.close, Effect.print doneLine] :=
  c7_success_sequence "COM7" 0 (okWorld true "OK") (by decide) rfl rfl rfl rfl rfl

/-- Claim C9: the captured epoch is used coherently: the very first effect of
a configured run is the header print formatting that epoch, and every byte
list handed to `ser.write` is the command built from the same epoch — both
are functions of the single captured value. -/
theorem c9_epoch_once (port : String) (epoch : Int) (w : SerialWorld) (hp : port ≠ "") :
    (after_upload (some port) epoch w).head? = some (Effect.print (headerLine epoch)) ∧
      ∀ data, Effect.write data ∈ after_upload (some port) epoch w →
        data = utf8Encode (cmdString epoch) := by
  rcases w with ⟨o, wr, fl, b, rd, resp, cl⟩
  cases o <;> cases wr <;> cases fl <;> cases b <;> cases rd <;> cases cl <;>
    simp [after_upload, tryBody, closeAndDone, hp]

/-- Claim C9 witness: concrete run at epoch 1700000000. -/
theorem c9_epoch_once_witness :
    ("COM7" : String) ≠ "" ∧
      ((after_upload (some "COM7") 1700000000 (okWorld false "")).head? =
          some (Effect.print (headerLine 1700000000)) ∧
        ∀ data, Effect.write data ∈ after_upload (some "COM7") 1700000000 (okWorld false "") →
          data = utf8Encode (cmdString 1700000000)) :=
  ⟨by decide, c9_epoch_once "COM7" 1700000000 (okWorld false "") (by decide)⟩

/-- Claim C10: a `readline` happens exactly when bytes are already buffered
at the single `in_waiting` check (after the 0.5 s pause) in an execution
whose open, write, and flush succeeded; and when nothing is buffered at that
instant, no read is ever attempted and the completion marker is still
printed (provided close succeeds). -/
theorem c10_read_gated (port : String) (epoch : Int) (w : SerialWorld) (hp : port ≠ "") :
    (Effect.readLine ∈ after_upload (some port) epoch w ↔
        w.openErr = none ∧ w.writeErr = none ∧ w.flushErr = none ∧ w.inWaiting = true) ∧
      (w.inWaiting = false → w.openErr = none → w.writeErr = none → w.flushErr = none →
        w.closeErr = none → Effect.print doneLine ∈ after_upload (some port) epoch w) := by
  rcases w with ⟨o, wr, fl, b, rd, resp, cl⟩
  cases o <;> cases wr <;> cases fl <;> cases b <;> cases rd <;> cases cl <;>
    simp [after_upload, tryBody, closeAndDone, hp]

/-- Claim C10 witness: concrete silent device; no read, completion marker
printed. -/
theorem c10_read_gated_witness :
    ("COM7" : String) ≠ "" ∧
      ((Effect.readLine ∈ after_upload (some "COM7") 0 (okWorld false "") ↔
          (okWorld false "").openErr = none ∧ (okWorld false "").writeErr = none ∧
            (okWorld false "").flushErr = none ∧ (okWorld false "").inWaiting = true) ∧
        ((okWorld false "").inWaiting = false → (okWorld false "").openErr = none →
          (okWorld false "").writeErr = none → (okWorld false "").flushErr = none →
          (okWorld false "").closeErr = none →
          Effect.print doneLine ∈ after_upload (some "COM7") 0 (okWorld false ""))) :=
  ⟨by decide, c10_read_gated "COM7" 0 (okWorld false "") (by decide)⟩

/-- Claim C8: in every configured run, the console output carries exactly one
of the two terminal markers: either the completion marker `[RTC] Done` is
printed and no `[RTC] Failed: ...` line is, or one failure line is printed
and the completion marker is not â never both. -/
theorem c8_terminal_marker (port : String) (epoch : Int) (w : SerialWorld) (hp : port ≠ "") :
    (Effect.print doneLine ∈ after_upload (some port) epoch w ∧
        ∀ m, Effect.print (failLine m) ∉ after_upload (some port) epoch w) ∨
      ((∃ m, Effect.print (failLine m) ∈ after_upload (some port) epoch w) ∧
        Effect.print doneLine ∉ after_upload (some port) epoch w) := by
  cases he : (tryBody port epoch w).2 with
  | none =>
    left
    rw [trace_ok hp he]
    constructor
    · exact List.mem_cons_of_mem _ ((done_mem_tryBody_fst port epoch w).2 he)
    · intro m hm
      rcases List.mem_cons.1 hm with h | h
      · simp only [Effect.print.injEq] at h
        exact failLine_ne_headerLine m epoch h
      · exact fail_not_mem_tryBody_fst port epoch w m h
  | some m₀ =>
    right
    rw [trace_err hp he]
    constructor
    · exact ⟨m₀, by simp⟩
    · intro hm
      rcases List.mem_cons.1 hm with h | h
      · simp only [Effect.print.injEq] at h
        exact doneLine_ne_headerLine epoch h
      · rcases List.mem_append.1 h with h₁ | h₂
        · have h₃ := (done_mem_tryBody_fst port epoch w).1 h₁
          rw [he] at h₃
          cases h₃
        · rcases List.mem_cons.1 h₂ with h₃ | h₃
          · simp only [Effect.print.injEq] at h₃
            exact doneLine_ne_failLine m₀ h₃
          · cases h₃

/-- Claim C8 witness: concrete successful run; the completion marker is
printed and no failure line is. -/
theorem c8_terminal_marker_witness :
    ("COM7" : String) ≠ "" ∧
      ((Effect.print doneLine ∈ after_upload (some "COM7") 0 (okWorld false "") ∧
          ∀ m, Effect.print (failLine m) ∉ after_upload (some "COM7") 0 (okWorld false "")) ∨
        ((∃ m, Effect.print (failLine m) ∈ after_upload (some "COM7") 0 (okWorld false "")) ∧
          Effect.print doneLine ∉ after_upload (some "COM7") 0 (okWorld false ""))) :=
  ⟨by decide, c8_terminal_marker "COM7" 0 (okWorld false "") (by decide)⟩

end Claims
